import Mathlib

/-!
# Verification of the mcp-server-sample tool-invocation layer

Shallow embedding of the tool implementations in `src/mcp-server/server.py`
and `src/simple-mcp-server/simple_mcp_server.py`, and of the client-side
orchestration loop in `src/backend/main.py`.  Outbound effects (the sqlite
database, the stock-price HTTP API, the model endpoint) are modelled as
explicit world parameters; a Python function that can raise an uncaught
exception is embedded as a function into `Except`.
-/

namespace Spec2Proof

/-! ## Data model: structured responses (server.py SCHEMAS section) -/

/-- `ErrorResponse` (server.py lines 32-37): structured error for failed API
calls, with `status` defaulting to "error". -/
structure ErrorResponse where
  status : String := "error"
  error_code : String
  message : String
  suggested_resolutions : List String
deriving DecidableEq, Repr

/-- `StockPriceResponse` (server.py lines 24-30).  The `price` field is a
JSON number in the source; it is carried here as its uninterpreted textual
form, since no code in the repository computes with it. -/
structure StockApiBody where
  ticker : String
  name : String
  price : String
  exchange : String
  currency : String
deriving DecidableEq, Repr

/-- One row of the `incidents` sqlite table, as converted to a dict by
`get_incident_by_id` (server.py lines 87-96).  Nullable columns are
`Option String`. -/
structure IncidentRow where
  ticket_id : String
  short_description : String
  description : String
  priority : String
  close_notes : Option String
  known_solution : Option String
  root_cause : Option String
deriving DecidableEq, Repr

/-! ## Tool: multiply (server.py lines 52-55, simple_mcp_server.py lines 27-30) -/

/-- `multiply(a, b)`: returns `a * b`. -/
def multiply (a b : Int) : Int := a * b

/-! ## Tool: get_incident_by_id (server.py lines 59-106)

The sqlite database is modelled as a list of rows plus an optional failure:
`failure = some e` means the connection/query raises `sqlite3.Error e`.  The
source catches `sqlite3.Error`, prints it, and returns `None` (lines
100-102); a row found by `SELECT ... WHERE ticket_id = ?` is returned as a
dict (here, the row itself); an absent row yields `None` (line 98). -/

structure IncidentsDb where
  rows : List IncidentRow
  failure : Option String
deriving DecidableEq, Repr

/-- `get_incident_by_id(ticket_id)` against a modelled database state. -/
def get_incident_by_id (db : IncidentsDb) (ticket_id : String) : Option IncidentRow :=
  match db.failure with
  | some _ => none
  | none => db.rows.find? (fun r => r.ticket_id == ticket_id)

/-! ## Tool: get_stock_price_data (server.py lines 109-141) -/

/-- The outbound GET built at server.py lines 122-124. -/
structure HttpRequest where
  url : String
  params : List (String × String)
  headers : List (String × String)
deriving DecidableEq, Repr

/-- `url`, `params`, `headers` exactly as server.py lines 122-124. -/
def stock_price_request (api_key ticker : String) : HttpRequest :=
  { url := "https://api.api-ninjas.com/v1/stockprice"
  , params := [("ticker", ticker)]
  , headers := [("X-Api-Key", api_key)] }

/-- Outcome of the single `session.get` call (server.py lines 126-141):
`ok` is a 200 response whose JSON body validates as `StockPriceResponse`;
`okInvalid` is a 200 response whose body fails pydantic validation (the
constructor call raises); `errStatus` is a non-2xx status with its text
body; `networkError` is a timeout or connection failure raised by aiohttp. -/
inductive HttpOutcome where
  | ok : StockApiBody → HttpOutcome
  | okInvalid : String → HttpOutcome
  | errStatus : Nat → String → HttpOutcome
  | networkError : String → HttpOutcome
deriving DecidableEq, Repr

/-- An exception escaping a Python tool body uncaught. -/
inductive PyError where
  | networkError : String → PyError
  | validationError : String → PyError
deriving DecidableEq, Repr

/-- The two dict shapes `get_stock_price_data` returns: the
`{"status": "success", "result": ...}` dict of line 130, or an
`ErrorResponse.model_dump()`. -/
inductive StockToolResult where
  | success : StockApiBody → StockToolResult
  | failure : ErrorResponse → StockToolResult
deriving DecidableEq, Repr

/-- The `ErrorResponse` built at server.py lines 114-120 when no API key is
configured. -/
def missing_api_key_error : ErrorResponse :=
  { status := "error"
  , error_code := "MISSING_API_KEY"
  , message := "API key for stock price service is not set"
  , suggested_resolutions := ["Set the STOCK_API_KEY environment variable"] }

/-- The `ErrorResponse` built at server.py lines 132-141 for a non-200
status. -/
def http_error_response (code : Nat) (body : String) : ErrorResponse :=
  { status := "error"
  , error_code := "HTTP_" ++ toString code
  , message := "Failed to fetch stock price: " ++ body
  , suggested_resolutions :=
      [ "Check if the ticker symbol is valid"
      , "Verify the API key is correct"
      , "Try again later" ] }

/-- The response handling of server.py lines 126-141: a 200 with a valid
body becomes the success dict; a non-200 becomes an `ErrorResponse` dict; a
network failure or a validation failure is an uncaught exception (there is
no try/except around this block). -/
def stock_price_handle (outcome : HttpOutcome) : Except PyError StockToolResult :=
  match outcome with
  | .ok body => .ok (.success body)
  | .okInvalid msg => .error (.validationError msg)
  | .errStatus code body => .ok (.failure (http_error_response code body))
  | .networkError msg => .error (.networkError msg)

/-- `get_stock_price_data(ticker)` (server.py lines 110-141).  The
environment variable `STOCK_API_KEY` is `api_key`; `if not api_key` is true
both for an unset variable (`none`) and for an empty string.  The HTTP world
maps the single request issued to its outcome: exactly one attempt is made,
with no retry. -/
def get_stock_price_data (world : HttpRequest → HttpOutcome)
    (api_key : Option String) (ticker : String) : Except PyError StockToolResult :=
  match api_key with
  | none => .ok (.failure missing_api_key_error)
  | some k =>
      if k = "" then .ok (.failure missing_api_key_error)
      else stock_price_handle (world (stock_price_request k ticker))

/-- Python default-parameter binding for `get_stock_price_data`
(server.py line 110, simple_mcp_server.py line 43): a call that omits the
`ticker` argument binds it to "AAPL". -/
def bind_ticker (ticker_arg : Option String) : String :=
  ticker_arg.getD "AAPL"

/-- Invoking `get_stock_price_data` from a directive whose arguments may
omit `ticker`: the omitted argument is filled by the declared default. -/
def get_stock_price_data_call (world : HttpRequest → HttpOutcome)
    (api_key : Option String) (ticker_arg : Option String) : Except PyError StockToolResult :=
  get_stock_price_data world api_key (bind_ticker ticker_arg)

/-! ## Content envelopes

The wrapping of a tool's return value into a protocol-level result envelope
is performed by the FastMCP framework, which is not part of the repository
sources; the envelope shape and its error flag are modelled from the spec
(sections 3 and 4.3). -/

/-- Modelled from the spec: `ContentEnvelope` (section 3) — the uniform
result wrapper around every tool invocation, an ordered sequence of text
blocks plus an `is_error` flag.  The framework producing it is not in src. -/
structure ContentEnvelope where
  content : List String
  is_error : Bool
deriving DecidableEq, Repr

/-- Textual form of an optional (nullable) string field in a serialized
dict. -/
def optStr : Option String → String
  | none => "null"
  | some s => "\"" ++ s ++ "\""

/-- Serialization of an `ErrorResponse` dict to text. -/
def error_response_text (e : ErrorResponse) : String :=
  "\x7b\"status\": \"" ++ e.status ++ "\", \"error_code\": \"" ++ e.error_code ++
  "\", \"message\": \"" ++ e.message ++ "\", \"suggested_resolutions\": [" ++
  String.intercalate ", " (e.suggested_resolutions.map (fun s => "\"" ++ s ++ "\"")) ++
  "]\x7d"

/-- Serialization of a `StockPriceResponse` dict to text. -/
def stock_body_text (b : StockApiBody) : String :=
  "\x7b\"ticker\": \"" ++ b.ticker ++ "\", \"name\": \"" ++ b.name ++
  "\", \"price\": " ++ b.price ++ ", \"exchange\": \"" ++ b.exchange ++
  "\", \"currency\": \"" ++ b.currency ++ "\"\x7d"

/-- Serialization of the two dict shapes `get_stock_price_data` returns. -/
def stock_result_text : StockToolResult → String
  | .success b => "\x7b\"status\": \"success\", \"result\": " ++ stock_body_text b ++ "\x7d"
  | .failure e => error_response_text e

/-- The message text of an escaped Python exception. -/
def py_error_text : PyError → String
  | .networkError m => m
  | .validationError m => m

/-- Whether a returned stock dict is a structured error (its `status` field
is "error"). -/
def stock_result_is_error : StockToolResult → Bool
  | .success _ => false
  | .failure _ => true

/-- Modelled from the spec: the Tool Invoker's envelope wrapping (section
4.3) for `get_stock_price_data` — the protocol layer is not in src.  Per the
spec, a failure of the execution (an exception escaping the tool body, or a
structured error result) is converted into an envelope with
`is_error = true`; a success is wrapped with `is_error = false`. -/
def stock_envelope : Except PyError StockToolResult → ContentEnvelope
  | .error e => { content := [py_error_text e], is_error := true }
  | .ok r => { content := [stock_result_text r], is_error := stock_result_is_error r }

/-- Serialization of an incident dict to text. -/
def incident_row_text (r : IncidentRow) : String :=
  "\x7b\"ticket_id\": \"" ++ r.ticket_id ++ "\", \"short_description\": \"" ++
  r.short_description ++ "\", \"description\": \"" ++ r.description ++
  "\", \"priority\": \"" ++ r.priority ++ "\", \"close_notes\": " ++
  optStr r.close_notes ++ ", \"known_solution\": " ++ optStr r.known_solution ++
  ", \"root_cause\": " ++ optStr r.root_cause ++ "\x7d"

/-- Modelled from the spec: the envelope wrapping for `get_incident_by_id`.
The tool body never raises (it catches `sqlite3.Error` and returns `None`),
so its return value is always wrapped as an ordinary, non-error result: a
dict becomes one text block, a bare `None` becomes an empty content list.
Neither value carries a failure signal the wrapping layer could mark. -/
def incident_envelope (r : Option IncidentRow) : ContentEnvelope :=
  { content := (r.map incident_row_text).toList, is_error := false }

/-- Modelled from the spec: the envelope wrapping for a plain integer
return such as `multiply`, serialized to its textual representation with
`is_error = false`. -/
def int_tool_envelope (r : Int) : ContentEnvelope :=
  { content := [toString r], is_error := false }

/-- Invoking `multiply` from a directive with arguments `a`, `b`. -/
def invoke_multiply (a b : Int) : ContentEnvelope :=
  int_tool_envelope (multiply a b)

/-! ## Prompt template: knowledge_base_query (server.py lines 189-218) -/

/-- The `solutions_expert` prompt body: the f-string of server.py lines
192-218 with the three arguments substituted. -/
def knowledge_base_query (context supporting_docs knowledge_base : String) : String :=
  "\n        # Role\n            You are a world class solutions expert, helping businesses solve complex problems quick and effectively.\n\n        # Tasks\n            - Given the following context, help the user by providing step-by-step instructions to their problems. \n            - If the user has an issue that is close to a description in our knowledge base then use that ticket_id to call the get_incident_by_id tool\n              use the information that that tool provides to help the user with their issue.\n\n        # Context\n            " ++
  context ++
  "\n\n        # Supporting Documents\n            ## Documents\n                " ++
  supporting_docs ++
  "\n\n            ## Knowledge base data from ServiceNow\n                " ++
  knowledge_base ++
  "\n\n        # Notes\n            - It is CRITICAL not to site any fabricated past incidents outside of the context and supporting documents you were given.\n            - If there is nothing in the supporting documentation that can aid you then give the best solution that \n              you are aware of related to the context. \n            - List the steps of your solution in numerical order. \n            - **IMPORTANT** When calling the get_incident_by_id tool you MUST match the ticket_id you got from the knowledge base with the ticket_id parameter you send\n              for example \"KB00015\" is the one you want, then pass \"KB00015\" as the parameter.\n    "

/-- Failure modes of `get_prompt` (spec sections 4.2 and 7). -/
inductive PromptError where
  | missingArgument : List String → PromptError
  | notFound : String → PromptError
deriving DecidableEq, Repr

/-- The required arguments of the `solutions_expert` prompt, read off the
`knowledge_base_query` signature (server.py line 190): all three parameters
have no default. -/
def solutions_expert_required : List String :=
  ["context", "supporting_docs", "knowledge_base"]

/-- Look up a named argument among those supplied to `get_prompt`. -/
def lookup_arg (args : List (String × String)) (k : String) : Option String :=
  (args.find? (fun p => p.1 == k)).map Prod.snd

/-- Modelled from the spec: `get_prompt` for the `solutions_expert`
template (section 4.2) — the argument-checking and rendering layer lives in
the FastMCP framework, not in src.  Per the spec it fails with
`MissingArgumentError` naming the absent required arguments; the required
list comes from the `knowledge_base_query` signature in src. -/
def get_prompt_solutions_expert (args : List (String × String)) : Except PromptError String :=
  let missing := solutions_expert_required.filter (fun k => (lookup_arg args k).isNone)
  if missing.isEmpty then
    .ok (knowledge_base_query ((lookup_arg args "context").getD "")
          ((lookup_arg args "supporting_docs").getD "")
          ((lookup_arg args "knowledge_base").getD ""))
  else
    .error (.missingArgument missing)

/-! ## Client side: src/backend/main.py -/

/-- An MCP tool description as discovered by `list_tools` (mcp.types.Tool):
name, description, input schema.  The schema is a reflection-generated JSON
object carried here as uninterpreted text, since `format_tools` copies it
verbatim and nothing in the repository inspects it. -/
structure McpTool where
  name : String
  description : String
  inputSchema : String
deriving DecidableEq, Repr

/-- The inner `function` object of the OpenAI tool shape built by
`format_tools` (main.py lines 30-37). -/
structure FunctionSpec where
  name : String
  description : String
  parameters : String
deriving DecidableEq, Repr

/-- One element of the OpenAI-format toolkit built by `format_tools`. -/
structure OpenAiTool where
  type : String
  function : FunctionSpec
deriving DecidableEq, Repr

/-- `format_tools(tools)` (main.py lines 26-39): maps each MCP tool to
`\x7b"type": "function", "function": \x7b name, description, parameters \x7d\x7d`,
copying name, description and inputSchema verbatim, in list order. -/
def format_tools (tools : List McpTool) : List OpenAiTool :=
  tools.map (fun t =>
    { type := "function"
    , function :=
        { name := t.name
        , description := t.description
        , parameters := t.inputSchema } })

/-- A tool-choice directive as returned by the model: `call.function.name`
and the raw JSON string `call.function.arguments`. -/
structure Directive where
  name : String
  arguments : String
deriving DecidableEq, Repr

/-- One chat message `\x7b role, content \x7d`. -/
structure ChatMessage where
  role : String
  content : String
deriving DecidableEq, Repr

/-- The request `llm_call` sends to the chat-completions endpoint. -/
structure ChatRequest where
  model : String
  messages : List ChatMessage
  tools : Option (List OpenAiTool)
  tool_choice : Option String
deriving DecidableEq, Repr

/-- The `choices[0].message` of a chat completion: `tool_calls` may be
absent (`None`), as may `content`. -/
structure ChatResponseMessage where
  tool_calls : Option (List Directive)
  content : Option String
deriving DecidableEq, Repr

/-- The model endpoint as a world: maps each request to the message it
returns. -/
structure ChatEndpoint where
  respond : ChatRequest → ChatResponseMessage

/-- What `llm_call` returns: `response.choices[0].message.tool_calls` on
the tools branch, `response.choices[0].message.content` otherwise. -/
inductive LlmReturn where
  | toolCalls : Option (List Directive) → LlmReturn
  | text : Option String → LlmReturn
deriving DecidableEq, Repr

/-- The request built by `llm_call` (main.py lines 45-63): with a non-empty
tool list (`if tools:`), model "gpt-4o", a single user message, the tools,
and `tool_choice` fixed to the literal "required" (line 53); with no tools,
the same message and no tool fields.  `llm_call` takes no mode parameter. -/
def llm_call_request (prompt : String) (tools : List OpenAiTool) : ChatRequest :=
  if tools.isEmpty then
    { model := "gpt-4o"
    , messages := [{ role := "user", content := prompt }]
    , tools := none
    , tool_choice := none }
  else
    { model := "gpt-4o"
    , messages := [{ role := "user", content := prompt }]
    , tools := some tools
    , tool_choice := some "required" }

/-- `llm_call(client, prompt, tools)` (main.py lines 42-64): sends the
request and extracts `tool_calls` when tools were supplied, `content`
otherwise.  The Python default `tools=None` and an empty list are both
falsy, modelled as the empty list. -/
def llm_call (endpoint : ChatEndpoint) (prompt : String) (tools : List OpenAiTool) : LlmReturn :=
  if tools.isEmpty then
    .text (endpoint.respond (llm_call_request prompt tools)).content
  else
    .toolCalls (endpoint.respond (llm_call_request prompt tools)).tool_calls

/-! ## Orchestration loop: the tool-execution phase of `test` (main.py lines 108-146) -/

/-- The initial follow-up buffer (main.py line 115): a header interpolating
the prompt, then an empty results section.  Note the source interpolates
the *rendered* `solutions_expert` prompt object here, not the raw user
prompt. -/
def followUpInit (prompt : String) : String :=
  "User\x27s Prompt:\n\n" ++ prompt ++ "\n\nResults of Tool Calls:\n"

/-- The per-call block appended to the follow-up buffer (main.py line 139):
tool name, raw arguments string, and the (possibly pretty-printed) response
text. -/
def toolCallBlock (tool_name arguments response_text : String) : String :=
  "\n\nTool Called: " ++ tool_name ++ "\nArguments Passed: " ++ arguments ++
  "\nResult: " ++ response_text ++ "\n"

/-- The `for call in tool_choices` loop (main.py lines 119-141).  `step`
models one `session.call_tool` round trip — the session state threads
through it, and it yields the response text after the extraction and
JSON pretty-printing of lines 129-136.  The loop walks the directives in
list order, appending each block to the accumulating buffer; the returned
triple is the final session state, the final buffer, and the directives in
the order they were executed. -/
def runToolLoop {S : Type} (step : S → Directive → S × String) :
    S → String → List Directive → S × String × List Directive
  | s, acc, [] => (s, acc, [])
  | s, acc, d :: ds =>
      let res := step s d
      let rest := runToolLoop step res.1 (acc ++ toolCallBlock d.name d.arguments res.2) ds
      (rest.1, rest.2.1, d :: rest.2.2)

/-- A concrete formatted tool (the `multiply` tool in OpenAI shape), used
as a concrete input below. -/
def multiply_openai_tool : OpenAiTool :=
  { type := "function"
  , function :=
      { name := "multiply"
      , description := "Multiply two numbers."
      , parameters := "\x7b\"properties\": \x7b\"a\": \x7b\"type\": \"integer\"\x7d, \"b\": \x7b\"type\": \"integer\"\x7d\x7d, \"required\": [\"a\", \"b\"]\x7d" } }

/-- A concrete incident row, used as a concrete database content below. -/
def sample_incident : IncidentRow :=
  { ticket_id := "KB00002"
  , short_description := "Database server crash"
  , description := "The database server crashed during the nightly batch"
  , priority := "1"
  , close_notes := none
  , known_solution := none
  , root_cause := none }

/-! ## Theorems -/

/-- Claim C1, counterexample: a knowledge-store lookup error is NOT
converted into an error envelope carrying an error code, message and
remediation list.  `get_incident_by_id` under a sqlite error returns the
very same value (`None`) as a successful lookup of an absent ticket, and
its envelope is an empty, non-error envelope with no error information. -/
theorem store_error_counterexample :
    get_incident_by_id { rows := [], failure := some "disk I/O error" } "KB00001"
      = get_incident_by_id { rows := [], failure := none } "KB00001"
    ∧ incident_envelope (get_incident_by_id { rows := [], failure := some "disk I/O error" } "KB00001")
      = { content := [], is_error := false } :=
  ⟨rfl, rfl⟩

/-- Claim C1 (amended): failure conversion is per-path.  A store lookup
error in `get_incident_by_id` is caught but converted to `None` — the same
value as a missing record — with no error code, message or remediation
list; a missing API key or a non-2xx HTTP response in
`get_stock_price_data` is converted, in the single attempt made, into a
structured error response carrying an error code, a message and a non-empty
suggested-resolutions list; a network failure of the HTTP call is not
caught inside the tool body and escapes it as an exception. -/
theorem tool_failure_conversion_amended :
    (∀ rows e tid, get_incident_by_id { rows := rows, failure := some e } tid = none)
    ∧ (∀ world tid, get_stock_price_data world none tid = .ok (.failure missing_api_key_error)
        ∧ missing_api_key_error.suggested_resolutions ≠ [])
    ∧ (∀ code body, stock_price_handle (.errStatus code body)
          = .ok (.failure (http_error_response code body))
        ∧ (http_error_response code body).suggested_resolutions ≠ [])
    ∧ (∀ msg, stock_price_handle (.networkError msg) = .error (.networkError msg)) := by
  refine ⟨fun rows e tid => rfl,
          fun world tid => ⟨rfl, by decide⟩,
          fun code body => ⟨rfl, by simp [http_error_response]⟩,
          fun msg => rfl⟩

/-- Claim C2: for a directive list `[dA, dB]` the loop executes the tools
strictly sequentially in the order received (the execution trace is
`[dA, dB]`, with dB's call taking the session state left by dA's call), and
the resulting follow-up text is the initial buffer, then dA's block, then
dB's block — so dA's block stands strictly before dB's. -/
theorem follow_up_order_preserved {S : Type} (step : S → Directive → S × String)
    (s : S) (p : String) (dA dB : Directive) :
    (runToolLoop step s (followUpInit p) [dA, dB]).2.1
      = followUpInit p ++ toolCallBlock dA.name dA.arguments (step s dA).2
        ++ toolCallBlock dB.name dB.arguments (step (step s dA).1 dB).2
    ∧ (runToolLoop step s (followUpInit p) [dA, dB]).2.2 = [dA, dB] :=
  ⟨rfl, rfl⟩

/-- Claim C3: invoking `get_stock_price_data` with no configured API key
yields, for every HTTP world and every ticker, the structured
MISSING_API_KEY error; its envelope has `is_error = true`, the error code
is "MISSING_API_KEY" and the suggested-resolutions list is non-empty. -/
theorem stock_missing_api_key (world : HttpRequest → HttpOutcome) (ticker : String) :
    get_stock_price_data world none ticker = .ok (.failure missing_api_key_error)
    ∧ (stock_envelope (get_stock_price_data world none ticker)).is_error = true
    ∧ missing_api_key_error.error_code = "MISSING_API_KEY"
    ∧ missing_api_key_error.suggested_resolutions ≠ [] := by
  refine ⟨rfl, rfl, rfl, by decide⟩

/-- Claim C4, counterexample: with an empty directive list the text handed
to the final model call is not the original prompt unchanged — the loop
leaves the follow-up buffer at its initialized header form. -/
theorem empty_directives_counterexample :
    (runToolLoop (fun (s : Unit) (_ : Directive) => (s, "")) ()
        (followUpInit "What is 5 * 10?") []).2.1
      ≠ "What is 5 * 10?" := by
  decide

/-- Claim C4 (amended): if the model returns an empty directive list the
loop performs no tool executions (empty trace, session state unchanged),
and the text passed to the final model call is the initialized follow-up
buffer — the header interpolating the rendered prompt followed by an empty
"Results of Tool Calls:" section — not the original prompt unchanged. -/
theorem empty_directives_amended {S : Type} (step : S → Directive → S × String)
    (s : S) (p : String) :
    runToolLoop step s (followUpInit p) [] = (s, followUpInit p, []) :=
  rfl

/-- Claim C5: `multiply` returns the product of its two integer arguments,
and invoking it on the directive arguments a=5, b=10 yields a non-error
envelope whose content represents 50. -/
theorem multiply_directive_envelope :
    invoke_multiply 5 10 = { content := ["50"], is_error := false }
    ∧ ∀ a b : Int, multiply a b = a * b :=
  ⟨by decide, fun _ _ => rfl⟩

/-- Claim C6, counterexample: at the concrete input (prompt
"What is 5 * 10?", one formatted tool), the request `llm_call` builds
carries `tool_choice = "required"` — the literal hard-coded at
src/backend/main.py line 53.  It is not "auto" and not "none", and
`llm_call` accepts no argument that could select those modes. -/
theorem llm_call_mode_counterexample :
    (llm_call_request "What is 5 * 10?" [multiply_openai_tool]).tool_choice = some "required"
    ∧ (llm_call_request "What is 5 * 10?" [multiply_openai_tool]).tool_choice ≠ some "auto"
    ∧ (llm_call_request "What is 5 * 10?" [multiply_openai_tool]).tool_choice ≠ some "none" := by
  refine ⟨rfl, by decide, by decide⟩

/-- Claim C6 (amended): `llm_call`, given a non-empty tools list, requests
the model with `tool_choice` fixed to the literal "required" (the mode is
not configurable — the function takes no mode parameter) and returns the
message's ordered `tool_calls`; given no tools, it sends the request
without tool fields and returns the free-form `content`. -/
theorem llm_call_amended (endpoint : ChatEndpoint) (prompt : String)
    (t : OpenAiTool) (ts : List OpenAiTool) :
    llm_call endpoint prompt (t :: ts)
      = .toolCalls (endpoint.respond
          { model := "gpt-4o"
          , messages := [{ role := "user", content := prompt }]
          , tools := some (t :: ts)
          , tool_choice := some "required" }).tool_calls
    ∧ llm_call endpoint prompt []
      = .text (endpoint.respond
          { model := "gpt-4o"
          , messages := [{ role := "user", content := prompt }]
          , tools := none
          , tool_choice := none }).content :=
  ⟨rfl, rfl⟩

/-- Claim C7: `format_tools` copies each tool's name, description and input
schema verbatim into the OpenAI shape, preserving list order: extracting
the function names (resp. descriptions, parameters) from the output
reproduces the original sequences exactly, and every element is tagged
"function". -/
theorem format_tools_roundtrip (ts : List McpTool) :
    (format_tools ts).map (fun t => t.function.name) = ts.map McpTool.name
    ∧ (format_tools ts).map (fun t => t.function.description) = ts.map McpTool.description
    ∧ (format_tools ts).map (fun t => t.function.parameters) = ts.map McpTool.inputSchema
    ∧ (format_tools ts).map OpenAiTool.type = ts.map (fun _ => "function") := by
  refine ⟨?_, ?_, ?_, ?_⟩ <;> rw [format_tools, List.map_map] <;> exact rfl

/-- Claim C8: `get_prompt` for the `solutions_expert` template, supplied
only the `context` argument, fails with `MissingArgumentError` naming the
two missing required fields, `supporting_docs` and `knowledge_base`. -/
theorem get_prompt_missing_arguments (c : String) :
    get_prompt_solutions_expert [("context", c)]
      = .error (.missingArgument ["supporting_docs", "knowledge_base"]) :=
  rfl

/-- Claim C9: when the requested ticket is absent from the database,
`get_incident_by_id` returns the same value (`None`) as when the query
itself fails with a sqlite error, so the return value alone cannot
distinguish a missing record from a lookup failure. -/
theorem get_incident_indistinguishable (rows : List IncidentRow) (tid e : String)
    (habsent : rows.find? (fun r => r.ticket_id == tid) = none) :
    get_incident_by_id { rows := rows, failure := none } tid
      = get_incident_by_id { rows := rows, failure := some e } tid
    ∧ get_incident_by_id { rows := rows, failure := some e } tid = none := by
  exact ⟨by simp [get_incident_by_id, habsent], rfl⟩

/-- Concrete instance of `get_incident_indistinguishable`: a database
holding only ticket KB00002, queried for the absent KB00001, with and
without a sqlite failure. -/
theorem get_incident_indistinguishable_witness :
    [sample_incident].find? (fun r => r.ticket_id == "KB00001") = none
    ∧ (get_incident_by_id { rows := [sample_incident], failure := none } "KB00001"
        = get_incident_by_id { rows := [sample_incident], failure := some "disk I/O error" } "KB00001"
      ∧ get_incident_by_id { rows := [sample_incident], failure := some "disk I/O error" } "KB00001" = none) :=
  ⟨by decide,
   get_incident_indistinguishable [sample_incident] "KB00001" "disk I/O error" (by decide)⟩

/-- Claim C10: calling `get_stock_price_data` with no ticker argument
behaves identically to calling it with ticker "AAPL", for every HTTP world
and every configured-API-key state — the omitted parameter binds to the
declared default "AAPL". -/
theorem stock_default_ticker (world : HttpRequest → HttpOutcome) (api_key : Option String) :
    get_stock_price_data_call world api_key none
      = get_stock_price_data_call world api_key (some "AAPL")
    ∧ bind_ticker none = "AAPL" :=
  ⟨rfl, rfl⟩

end Spec2Proof
